import Mathlib

/-!
Verification development for the MCP generator orchestrator
(`src/agent/graph.py` and `src/tools/freestyle_tool.py`).

The Python workflow is shallowly embedded: each LangGraph node function
becomes a Lean function from the current workflow state and an explicit
oracle (recording the outcomes of the external collaborator calls the node
makes: code generator, repository host, dev sandbox, ReAct agent run,
database save) to the partial state update the node returns, together with
the list of collaborator calls it issued.  The graph wiring of
`create_mcp_generator_graph` (a linear chain generate -> deploy_dev ->
react_agent) becomes `runGraph`.  Error-message strings are modelled up to
quoting of embedded values.
-/

namespace MCPGen

/-- Python `str.strip()` whitespace predicate (ASCII whitespace as in
`str.isspace` for the characters that occur in this code base). -/
def isPySpace (c : Char) : Bool :=
  c = ' ' || c = '\t' || c = '\n' || c = '\r' || c = '\x0b' || c = '\x0c'

/-- `str.strip()` on a character list: drop whitespace from both ends. -/
def pyStripList (l : List Char) : List Char :=
  ((l.dropWhile isPySpace).reverse.dropWhile isPySpace).reverse

/-- Python `str.strip()`. -/
def pyStrip (s : String) : String :=
  String.mk (pyStripList s.toList)

/-- Python `str.startswith(p)`. -/
def pyStartswith (s p : String) : Bool :=
  p.toList.isPrefixOf s.toList

/-- The URL check of `generate_mcp_server` (graph.py line 177):
`spec_url.startswith("http://") or spec_url.startswith("https://")`. -/
def urlAccepts (spec_url : String) : Bool :=
  pyStartswith spec_url "http://" || pyStartswith spec_url "https://"

/-- The accept/reject decision of the validation step as a function of the
raw payload (graph.py lines 176-178: strip, then scheme check). -/
def genDecision (payload : String) : Bool :=
  urlAccepts (pyStrip payload)

/-- `InputType` enum of graph.py. -/
inductive InputType where
  | openapi
  | description
deriving DecidableEq, Repr

/-- `Phase` enum of graph.py. -/
inductive Phase where
  | generating
  | deploying
  | testing
  | refining
  | production
  | completed
  | failed
deriving DecidableEq, Repr

/-- The string value of each `Phase` enum member. -/
def Phase.toString : Phase → String
  | .generating => "generating"
  | .deploying => "deploying"
  | .testing => "testing"
  | .refining => "refining"
  | .production => "production"
  | .completed => "completed"
  | .failed => "failed"

/-- All seven `Phase` string values. -/
def allPhaseStrings : List String :=
  [Phase.generating.toString, Phase.deploying.toString, Phase.testing.toString,
   Phase.refining.toString, Phase.production.toString, Phase.completed.toString,
   Phase.failed.toString]

/-- One record of the `errors` list: `{"phase": ..., "error": ...}`. -/
structure ErrorRec where
  phase : String
  error : String
deriving DecidableEq, Repr

/-- A generated file bundle: relative path to content. -/
abbrev Files : Type := List (String × String)

/-- The dictionary returned by `freestyle_request_dev_server` (the fields the
orchestrator reads; each URL may be absent/None after the getattr fallbacks). -/
structure DevServerInfo where
  ephemeral_url : Option String
  mcp_ephemeral_url : Option String
  code_server_url : Option String
deriving DecidableEq, Repr

/-- `MCPGeneratorState` (graph.py lines 137-162).  Optional fields are keys
that may be absent from the LangGraph state dict. -/
structure MCPGeneratorState where
  input_type : InputType
  input_data : String
  project_id : String
  mcp_server_files : Option Files
  repo_id : Option String
  dev_server_info : Option DevServerInfo
  validation_errors : List String
  current_iteration : Nat
  max_iterations : Nat
  current_phase : Phase
  errors : List ErrorRec
  completed_at : Option String
  mcp_id : Option String
deriving DecidableEq, Repr

/-- The partial update dictionary a node function returns; `none` means the
key is absent from the returned dict (state value kept). -/
structure Updates where
  current_phase : Option Phase := none
  mcp_server_files : Option Files := none
  repo_id : Option String := none
  dev_server_info : Option DevServerInfo := none
  errors : Option (List ErrorRec) := none
  completed_at : Option String := none
  mcp_id : Option String := none
  react_result : Option String := none
deriving DecidableEq, Repr

/-- LangGraph merge of a returned update dict into the state: returned keys
overwrite, absent keys keep the previous value (no reducers are declared). -/
def applyUpdates (s : MCPGeneratorState) (u : Updates) : MCPGeneratorState :=
  { s with
    current_phase := u.current_phase.getD s.current_phase
    mcp_server_files := (u.mcp_server_files).orElse (fun _ => s.mcp_server_files)
    repo_id := (u.repo_id).orElse (fun _ => s.repo_id)
    dev_server_info := (u.dev_server_info).orElse (fun _ => s.dev_server_info)
    errors := (u.errors).getD s.errors
    completed_at := (u.completed_at).orElse (fun _ => s.completed_at)
    mcp_id := (u.mcp_id).orElse (fun _ => s.mcp_id) }

/-- A collaborator invocation issued by a node, with its argument. -/
inductive Call where
  | openapiGenerator (url : String)
  | llmGenerate (input : String)
  | createRepo (files : Option Files)
  | requestDevServer (repo_id : String)
  | mcpConnect (url : String)
  | reactAgent
  | dbSave
deriving DecidableEq, Repr

/-- Outcomes of the external collaborators `generate_mcp_server` uses:
`openapiGen url` is the result of running `npx openapi-mcp-generator` on
`url` (ok: the file bundle read back; error: the raised message),
`llmGenerate input` is the LLM response content for the description prompt
built from `input`, and `parseJsonFiles` is `json.loads` of that content as
a path-to-content mapping (`none` = `json.JSONDecodeError`). -/
structure GenOracle where
  openapiGen : String → Except String Files
  llmGenerate : String → Except String String
  parseJsonFiles : String → Option Files

/-- The failure exit of `generate_mcp_server` (graph.py lines 230-234). -/
def genFail (s : MCPGeneratorState) (msg : String) : Updates :=
  { current_phase := some .failed
    errors := some (s.errors ++ [⟨"generation", msg⟩]) }

/-- `generate_mcp_server` (graph.py lines 169-236). -/
def generate_mcp_server (o : GenOracle) (s : MCPGeneratorState) :
    Updates × List Call :=
  match s.input_type with
  | .openapi =>
      let spec_url := pyStrip s.input_data
      if urlAccepts spec_url then
        match o.openapiGen spec_url with
        | .ok files =>
            ({ current_phase := some .deploying, mcp_server_files := some files },
             [.openapiGenerator spec_url])
        | .error e =>
            (genFail s e, [.openapiGenerator spec_url])
      else
        (genFail s ("OpenAPI spec must be a valid URL, got: " ++ spec_url), [])
  | .description =>
      match o.llmGenerate s.input_data with
      | .error e => (genFail s e, [.llmGenerate s.input_data])
      | .ok content =>
          match o.parseJsonFiles content with
          | some files =>
              ({ current_phase := some .deploying, mcp_server_files := some files },
               [.llmGenerate s.input_data])
          | none =>
              (genFail s "Failed to parse LLM response as JSON",
               [.llmGenerate s.input_data])

/-- Environment and collaborator outcomes for `deploy_to_dev_server`:
whether `FREESTYLE_API_KEY` is set (truthy), the result of
`freestyle_create_repo` (ok: the repo id), and of
`freestyle_request_dev_server`. -/
structure DeployOracle where
  hasFreestyleKey : Bool
  createRepo : Except String String
  requestDevServer : Except String DevServerInfo

/-- The failure exit of `deploy_to_dev_server` (graph.py lines 269-273);
`extra` carries the keys already written into the update dict before the
exception (only `repo_id` can be set at that point). -/
def deployFail (s : MCPGeneratorState) (msg : String) (rid : Option String) :
    Updates :=
  { current_phase := some .failed
    repo_id := rid
    errors := some (s.errors ++ [⟨"deployment", msg⟩]) }

/-- `deploy_to_dev_server` (graph.py lines 239-275).  Reading
`state["mcp_server_files"]` when the key is absent raises `KeyError`, which
the handler's `except` turns into a deployment error record. -/
def deploy_to_dev_server (o : DeployOracle) (s : MCPGeneratorState) :
    Updates × List Call :=
  if !o.hasFreestyleKey then
    (deployFail s "FREESTYLE_API_KEY environment variable required" none, [])
  else
    match s.mcp_server_files with
    | none => (deployFail s "mcp_server_files" none, [])
    | some files =>
        match o.createRepo with
        | .error e => (deployFail s e none, [.createRepo (some files)])
        | .ok rid =>
            match o.requestDevServer with
            | .error e =>
                (deployFail s e (some rid),
                 [.createRepo (some files), .requestDevServer rid])
            | .ok info =>
                ({ current_phase := some .refining
                   repo_id := some rid
                   dev_server_info := some info },
                 [.createRepo (some files), .requestDevServer rid])

/-- One tool invocation made by the ReAct agent during its run: a protocol
probe (`freestyle_test_mcp_server`, with its passed outcome), a repair call
(`morph_apply_edit`), a production deploy, or any other tool. -/
inductive AgentTool where
  | probe (passed : Bool)
  | repair
  | deployProd
  | other
deriving DecidableEq, Repr

/-- Environment and collaborator outcomes for `react_agent_workflow`: key
presence (truthiness) flags, the `langchain_mcp_adapters` import, the MCP
client connection plus `get_tools`, the `react_agent.ainvoke` run (ok: the
trace of tools the agent called), the `save_mcp_to_database` result (which
never raises; `none` means unconfigured, non-201 status, bad response shape
or a caught exception), and the completion timestamp. -/
structure ReactOracle where
  hasMorphKey : Bool
  hasFreestyleKey : Bool
  hasAnthropicKey : Bool
  adaptersImport : Except String Unit
  connect : Except String Unit
  agentRun : Except String (List AgentTool)
  dbSave : Option String
  now : String

/-- `state.get("dev_server_info", {}).get("mcp_ephemeral_url")`. -/
def mcpUrlOf (s : MCPGeneratorState) : Option String :=
  match s.dev_server_info with
  | none => none
  | some i => i.mcp_ephemeral_url

/-- `dev_server_info.get("ephemeral_url", "")` truthiness (graph.py
lines 435-442): the production URL the database record would use. -/
def devUrlTruthy (s : MCPGeneratorState) : Bool :=
  match s.dev_server_info with
  | none => false
  | some i =>
      match i.ephemeral_url with
      | none => false
      | some p => p ≠ ""

/-- The failure exit of `react_agent_workflow` (graph.py lines 471-475). -/
def reactFail (s : MCPGeneratorState) (msg : String) : Updates :=
  { current_phase := some .failed
    errors := some (s.errors ++ [⟨"react_workflow", msg⟩]) }

/-- `react_agent_workflow` (graph.py lines 278-477): key checks, MCP URL
lookup, adapter import, client connection, agent invocation; on a normal
agent return the best-effort database save runs (its failure is swallowed)
and the phase is set to completed unconditionally. -/
def react_agent_workflow (o : ReactOracle) (s : MCPGeneratorState) :
    Updates × List Call :=
  if !(o.hasMorphKey && o.hasFreestyleKey) then
    (reactFail s "Both MORPH_API_KEY and FREESTYLE_API_KEY environment variables required", [])
  else
    match mcpUrlOf s with
    | none => (reactFail s "No MCP server URL found in dev server info", [])
    | some mcp_url =>
        if mcp_url = "" then
          (reactFail s "No MCP server URL found in dev server info", [])
        else
          match o.adaptersImport with
          | .error e => (reactFail s ("Failed to import MCP adapters: " ++ e), [])
          | .ok _ =>
              match o.connect with
              | .error e =>
                  (reactFail s ("Failed to connect to MCP server at " ++ mcp_url ++ ": " ++ e),
                   [.mcpConnect mcp_url])
              | .ok _ =>
                  match s.repo_id with
                  | none => (reactFail s "repo_id", [.mcpConnect mcp_url])
                  | some _ =>
                      if !o.hasAnthropicKey then
                        (reactFail s "ReAct agent failed: Exception: ANTHROPIC_API_KEY environment variable is required",
                         [.mcpConnect mcp_url])
                      else
                        match o.agentRun with
                        | .error e =>
                            (reactFail s ("ReAct agent failed: Exception: ReAct agent failed - " ++ e),
                             [.mcpConnect mcp_url, .reactAgent])
                        | .ok _trace =>
                            let doSave := devUrlTruthy s && s.project_id ≠ ""
                            let savedId : Option String :=
                              if doSave then
                                match o.dbSave with
                                | some id => if id ≠ "" then some id else none
                                | none => none
                              else none
                            ({ current_phase := some .completed
                               completed_at := some o.now
                               mcp_id := savedId
                               react_result := some "ReAct agent completed successfully" },
                             [.mcpConnect mcp_url, .reactAgent] ++
                               (if doSave then [Call.dbSave] else []))

/-- The linear graph of `create_mcp_generator_graph` (graph.py lines
481-499): generate -> deploy_dev -> react_agent -> END, with unconditional
edges; every node executes on every run. -/
def runGraph (og : GenOracle) (od : DeployOracle) (orc : ReactOracle)
    (s0 : MCPGeneratorState) : MCPGeneratorState × List Call :=
  let g := generate_mcp_server og s0
  let s1 := applyUpdates s0 g.1
  let d := deploy_to_dev_server od s1
  let s2 := applyUpdates s1 d.1
  let r := react_agent_workflow orc s2
  (applyUpdates s2 r.1, g.2 ++ d.2 ++ r.2)

/-- The sequence of merged-state phase values after each of the three
nodes. -/
def phaseTrace (og : GenOracle) (od : DeployOracle) (orc : ReactOracle)
    (s0 : MCPGeneratorState) : List Phase :=
  let s1 := applyUpdates s0 (generate_mcp_server og s0).1
  let s2 := applyUpdates s1 (deploy_to_dev_server od s1).1
  let s3 := applyUpdates s2 (react_agent_workflow orc s2).1
  [s1.current_phase, s2.current_phase, s3.current_phase]

/-- Number of repair (`morph_apply_edit`) calls in an agent trace. -/
def repairCount (t : List AgentTool) : Nat :=
  t.countP (fun x => x = AgentTool.repair)

/-- Every probe in the agent trace failed. -/
def probesAllFail (t : List AgentTool) : Bool :=
  t.all (fun x =>
    match x with
    | .probe passed => !passed
    | _ => true)

instance {ε α : Type} [DecidableEq ε] [DecidableEq α] :
    DecidableEq (Except ε α) := fun a b =>
  match a, b with
  | .ok x, .ok y =>
      if h : x = y then isTrue (by rw [h]) else
        isFalse (fun hh => h (Except.ok.inj hh))
  | .error x, .error y =>
      if h : x = y then isTrue (by rw [h]) else
        isFalse (fun hh => h (Except.error.inj hh))
  | .ok _, .error _ => isFalse (fun hh => Except.noConfusion hh)
  | .error _, .ok _ => isFalse (fun hh => Except.noConfusion hh)

/-- The HTTP response seen by `freestyle_test_mcp_server`: the status code
and the outcome of `response.json()` on the body (error = decode raise). -/
structure HttpResponse where
  status_code : Nat
  jsonBody : Except String String
deriving DecidableEq, Repr

/-- The result dict of `freestyle_test_mcp_server`; absent keys are
`none`. -/
structure TestResult where
  passed : Bool
  status_code : Option Nat := none
  response : Option String := none
  error : Option String := none
deriving DecidableEq, Repr

/-- The fixed JSON-RPC-style initialize envelope sent by the probe
(freestyle_tool.py lines 124-135). -/
structure InitEnvelope where
  jsonrpc : String
  method : String
  protocolVersion : String
  clientInfoName : String
  clientInfoVersion : String
  id : Nat
deriving DecidableEq, Repr

/-- The envelope constant the probe posts. -/
def mcpInitEnvelope : InitEnvelope :=
  { jsonrpc := "2.0"
    method := "initialize"
    protocolVersion := "1.0.0"
    clientInfoName := "mcp-tester"
    clientInfoVersion := "1.0.0"
    id := 1 }

/-- The requests issued by one call of the probe: a single POST to
`{mcp_url}/mcp/v1/initialize` carrying the fixed envelope. -/
def probeRequests (mcp_url : String) : List (String × InitEnvelope) :=
  [(mcp_url ++ "/mcp/v1/initialize", mcpInitEnvelope)]

/-- `freestyle_test_mcp_server` (freestyle_tool.py lines 103-156) as a
function of the transport outcome (error = raised transport exception,
whose message the outer `except` captures).  In the 200 branch the result
embeds `response.json()`; if that decode raises, the outer `except` catches
it and returns a failed result with no status code. -/
def freestyle_test_mcp_server (transport : Except String HttpResponse) :
    TestResult :=
  match transport with
  | .error e => { passed := false, error := some e }
  | .ok r =>
      if r.status_code = 200 then
        match r.jsonBody with
        | .ok j =>
            { passed := true, status_code := some r.status_code, response := some j }
        | .error e => { passed := false, error := some e }
      else
        { passed := false
          status_code := some r.status_code
          error := some ("MCP initialization failed: " ++ toString r.status_code) }

/-- The result dict of `freestyle_deploy_production`. -/
structure ProdResult where
  deployment_id : String
  production_url : String
  status : String
  repo_id : String
deriving DecidableEq, Repr

/-- `freestyle_deploy_production` (freestyle_tool.py lines 159-182): a mock
that performs no external call; `pyHash` is the process's `hash` function
on strings (`%` is Python floor-mod, matching `Int.emod` for a positive
modulus). -/
def freestyle_deploy_production (pyHash : String → Int) (repo_id : String) :
    ProdResult :=
  { deployment_id := "prod-" ++ repo_id ++ "-" ++ ToString.toString (pyHash repo_id % 1000)
    production_url := "https://prod-" ++ repo_id ++ ".freestyle.sh"
    status := "deployed"
    repo_id := repo_id }

/-- Characters admissible in a URL (RFC 3986 unreserved, reserved and the
percent sign); in particular a space is not a URL character. -/
def isUrlChar (c : Char) : Bool :=
  c.isAlphanum || "-._~:/?#[]@!$&()*+,;=%".toList.contains c

/-- Modelled from the spec: "payload must be a syntactically valid absolute
URL with an `http`/`https` scheme" — a scheme prefix followed by a
non-empty remainder of URL characters.  This is the spec-side definition
used to compare the spec's validation rule with the code's prefix-only
check `urlAccepts`. -/
def specValidHttpUrl (s : String) : Bool :=
  (pyStartswith s "http://" && !(s.toList.drop 7).isEmpty
     && (s.toList.drop 7).all isUrlChar) ||
  (pyStartswith s "https://" && !(s.toList.drop 8).isEmpty
     && (s.toList.drop 8).all isUrlChar)

/-- Preconditions under which `react_agent_workflow` reaches the agent
invocation: keys set, a truthy MCP URL in the deployment info, the adapter
module loads, the connection succeeds, and `repo_id` is present. -/
def reactSuccessPre (o : ReactOracle) (s : MCPGeneratorState) : Prop :=
  o.hasMorphKey = true ∧ o.hasFreestyleKey = true ∧ o.hasAnthropicKey = true ∧
  (∃ u, mcpUrlOf s = some u ∧ u ≠ "") ∧
  o.adaptersImport = .ok () ∧ o.connect = .ok () ∧ (∃ r, s.repo_id = some r)

/-- A typical initial state as built by `run_mcp_generator.py` for an
OpenAPI input. -/
def baseState : MCPGeneratorState :=
  { input_type := .openapi
    input_data := "https://api.example.com/openapi.json"
    project_id := ""
    mcp_server_files := none
    repo_id := none
    dev_server_info := none
    validation_errors := []
    current_iteration := 0
    max_iterations := 3
    current_phase := .generating
    errors := []
    completed_at := none
    mcp_id := none }

/-- Generation collaborators that succeed. -/
def happyGen : GenOracle :=
  { openapiGen := fun _ => .ok [("package.json", "pkg"), ("index.js", "srv")]
    llmGenerate := fun _ => .ok "llm output"
    parseJsonFiles := fun _ => some [("index.js", "srv")] }

/-- A dev-server info record with both URLs present. -/
def happyDevInfo : DevServerInfo :=
  { ephemeral_url := some "https://dev-1.style.dev"
    mcp_ephemeral_url := some "https://dev-1.style.dev/mcp"
    code_server_url := none }

/-- Deployment collaborators that succeed. -/
def happyDeploy : DeployOracle :=
  { hasFreestyleKey := true
    createRepo := .ok "repo-1"
    requestDevServer := .ok happyDevInfo }

/-- A deploy environment with no `FREESTYLE_API_KEY`. -/
def noKeyDeploy : DeployOracle :=
  { hasFreestyleKey := false
    createRepo := .error "unused"
    requestDevServer := .error "unused" }

/-- A react environment where the agent runs to completion but every probe
it issued failed, and the database save does not succeed. -/
def reactAllFailProbe : ReactOracle :=
  { hasMorphKey := true
    hasFreestyleKey := true
    hasAnthropicKey := true
    adaptersImport := .ok ()
    connect := .ok ()
    agentRun := .ok [AgentTool.probe false]
    dbSave := none
    now := "2025-01-01T00:00:00" }

/-- A react environment on the happy path: the probe passed and the agent
deployed to production. -/
def happyReact : ReactOracle :=
  { reactAllFailProbe with
    agentRun := .ok [AgentTool.probe true, AgentTool.deployProd] }

/-- A react environment with `MORPH_API_KEY` missing. -/
def noKeyReact : ReactOracle :=
  { reactAllFailProbe with hasMorphKey := false }

/-- Initial state with iteration cap 1 (for the bounded-repair claim). -/
def c1State : MCPGeneratorState := { baseState with max_iterations := 1 }

/-- Initial state with an empty OpenAPI payload. -/
def emptyOpenapiState : MCPGeneratorState := { baseState with input_data := "" }

/-- Initial state with an empty Description payload. -/
def emptyDescState : MCPGeneratorState :=
  { baseState with input_type := .description, input_data := "" }

/-- Empty-payload state in which the caller pre-supplied a file bundle. -/
def emptyWithFilesState : MCPGeneratorState :=
  { baseState with
    input_data := ""
    mcp_server_files := some [("index.js", "srv")] }

/-- Initial state whose payload passes the code's prefix check but is not a
syntactically valid URL (it contains a space). -/
def c4State : MCPGeneratorState :=
  { baseState with input_data := "http://exa mple.com" }

/-- Initial state with whitespace around a valid specification URL. -/
def c10State : MCPGeneratorState :=
  { baseState with input_data := " https://a.com " }

/-- A state that has passed generation and deployment: files, repo id and
dev-server info all present. -/
def readyState : MCPGeneratorState :=
  { baseState with
    mcp_server_files := some [("index.js", "srv")]
    repo_id := some "repo-1"
    dev_server_info := some happyDevInfo
    current_phase := .refining }

/-- A state already in phase Failed with one generation error and a
caller-supplied file bundle. -/
def failedWithFiles : MCPGeneratorState :=
  { baseState with
    current_phase := .failed
    mcp_server_files := some [("index.js", "srv")]
    errors := [⟨"generation", "generator crashed"⟩] }

/-- A react environment in which the agent invocation raises. -/
def errReact : ReactOracle :=
  { reactAllFailProbe with agentRun := .error "boom" }

end MCPGen

namespace MCPGen

theorem dropWhile_append_of_space (w y : List Char)
    (h : ∀ c ∈ w, isPySpace c = true) :
    (w ++ y).dropWhile isPySpace = y.dropWhile isPySpace := by
  rw [List.dropWhile_append]
  have hw : w.dropWhile isPySpace = [] := by
    rw [List.dropWhile_eq_nil_iff]
    exact h
  simp [hw]

theorem pyStripList_sandwich (w1 w2 x : List Char)
    (h1 : ∀ c ∈ w1, isPySpace c = true) (h2 : ∀ c ∈ w2, isPySpace c = true) :
    pyStripList (w1 ++ x ++ w2) = pyStripList x := by
  unfold pyStripList
  rw [List.append_assoc, dropWhile_append_of_space w1 (x ++ w2) h1]
  rw [List.dropWhile_append]
  by_cases hx : (x.dropWhile isPySpace).isEmpty
  · have hxnil : x.dropWhile isPySpace = [] := by
      simpa [List.isEmpty_iff] using hx
    have hw2 : w2.dropWhile isPySpace = [] := by
      rw [List.dropWhile_eq_nil_iff]
      exact h2
    simp [hx, hxnil, hw2]
  · have h2r : ∀ c ∈ w2.reverse, isPySpace c = true := by
      intro c hc
      exact h2 c (List.mem_reverse.mp hc)
    have hxe : (x.dropWhile isPySpace).isEmpty = false := by
      simpa using hx
    rw [hxe]
    simp only [Bool.false_eq_true, if_false]
    rw [List.reverse_append, dropWhile_append_of_space w2.reverse _ h2r]

theorem pyStrip_sandwich (w1 w2 : List Char) (p : String)
    (h1 : ∀ c ∈ w1, isPySpace c = true) (h2 : ∀ c ∈ w2, isPySpace c = true) :
    pyStrip (String.mk (w1 ++ p.toList ++ w2)) = pyStrip p := by
  unfold pyStrip
  rw [show (String.mk (w1 ++ p.toList ++ w2)).toList = w1 ++ p.toList ++ w2 from rfl]
  rw [pyStripList_sandwich w1 w2 p.toList h1 h2]

theorem react_ok_shape (orc : ReactOracle) (s : MCPGeneratorState)
    (tr : List AgentTool) (hpre : reactSuccessPre orc s)
    (hrun : orc.agentRun = .ok tr) :
    (react_agent_workflow orc s).1.current_phase = some Phase.completed ∧
    (react_agent_workflow orc s).1.errors = none ∧
    (∀ id, (react_agent_workflow orc s).1.mcp_id = some id →
      orc.dbSave = some id ∧ id ≠ "") := by
  obtain ⟨h1, h2, h3, ⟨u, hu, hu0⟩, h4, h5, r, h6⟩ := hpre
  refine ⟨?_, ?_, ?_⟩
  · simp [react_agent_workflow, h1, h2, h3, h4, h5, h6, hu, hu0, hrun]
  · simp [react_agent_workflow, h1, h2, h3, h4, h5, h6, hu, hu0, hrun]
  · intro id hid
    simp only [react_agent_workflow, h1, h2, h3, h4, h5, h6, hu, hu0, hrun] at hid
    by_cases hdv : devUrlTruthy s = true
    · by_cases hpj : s.project_id = ""
      · simp [hdv, hpj] at hid
      · cases hdb : orc.dbSave with
        | none => simp [hdv, hpj, hdb] at hid
        | some v =>
            by_cases hv : v = ""
            · simp [hdv, hpj, hdb, hv] at hid
            · simp [hdv, hpj, hdb, hv] at hid
              constructor
              · exact congrArg some hid
              · intro hide
                rw [hide] at hid
                exact hv hid
    · simp [hdv] at hid

theorem react_err_shape (orc : ReactOracle) (s : MCPGeneratorState)
    (e : String) (hpre : reactSuccessPre orc s)
    (hrun : orc.agentRun = .error e) :
    (react_agent_workflow orc s).1.current_phase = some Phase.failed ∧
    (react_agent_workflow orc s).1.errors =
      some (s.errors ++ [⟨"react_workflow",
        "ReAct agent failed: Exception: ReAct agent failed - " ++ e⟩]) := by
  obtain ⟨h1, h2, h3, ⟨u, hu, hu0⟩, h4, h5, r, h6⟩ := hpre
  simp [react_agent_workflow, h1, h2, h3, h4, h5, h6, hu, hu0, hrun, reactFail]

theorem gen_errors_cases (og : GenOracle) (s : MCPGeneratorState) :
    (generate_mcp_server og s).1.errors = none ∨
    ∃ m, (generate_mcp_server og s).1.errors =
      some (s.errors ++ [⟨"generation", m⟩]) := by
  cases ht : s.input_type with
  | openapi =>
      by_cases hd : urlAccepts (pyStrip s.input_data) = true
      · cases hog : og.openapiGen (pyStrip s.input_data) with
        | ok f => left; simp [generate_mcp_server, ht, hd, hog]
        | error e => right; exact ⟨e, by simp [generate_mcp_server, ht, hd, hog, genFail]⟩
      · right
        refine ⟨"OpenAPI spec must be a valid URL, got: " ++ pyStrip s.input_data, ?_⟩
        simp [generate_mcp_server, ht, hd, genFail]
  | description =>
      cases hog : og.llmGenerate s.input_data with
      | error e => right; exact ⟨e, by simp [generate_mcp_server, ht, hog, genFail]⟩
      | ok content =>
          cases hp : og.parseJsonFiles content with
          | some f => left; simp [generate_mcp_server, ht, hog, hp]
          | none =>
              right
              exact ⟨"Failed to parse LLM response as JSON",
                by simp [generate_mcp_server, ht, hog, hp, genFail]⟩

theorem deploy_errors_cases (od : DeployOracle) (s : MCPGeneratorState) :
    (deploy_to_dev_server od s).1.errors = none ∨
    ∃ m, (deploy_to_dev_server od s).1.errors =
      some (s.errors ++ [⟨"deployment", m⟩]) := by
  by_cases hk : od.hasFreestyleKey = true
  · cases hf : s.mcp_server_files with
    | none =>
        right
        exact ⟨"mcp_server_files", by simp [deploy_to_dev_server, hk, hf, deployFail]⟩
    | some f =>
        cases hcr : od.createRepo with
        | error e => right; exact ⟨e, by simp [deploy_to_dev_server, hk, hf, hcr, deployFail]⟩
        | ok rid =>
            cases hdev : od.requestDevServer with
            | error e =>
                right
                exact ⟨e, by simp [deploy_to_dev_server, hk, hf, hcr, hdev, deployFail]⟩
            | ok info => left; simp [deploy_to_dev_server, hk, hf, hcr, hdev]
  · have hk' : od.hasFreestyleKey = false := by simpa using hk
    right
    exact ⟨"FREESTYLE_API_KEY environment variable required",
      by simp [deploy_to_dev_server, hk', deployFail]⟩

theorem react_errors_cases (orc : ReactOracle) (s : MCPGeneratorState) :
    (react_agent_workflow orc s).1.errors = none ∨
    ∃ m, (react_agent_workflow orc s).1.errors =
      some (s.errors ++ [⟨"react_workflow", m⟩]) := by
  unfold react_agent_workflow
  by_cases hkeys : (orc.hasMorphKey && orc.hasFreestyleKey) = true
  · simp only [hkeys, Bool.not_true, Bool.false_eq_true, if_false]
    cases hu : mcpUrlOf s with
    | none =>
        right
        exact ⟨"No MCP server URL found in dev server info", by simp [reactFail]⟩
    | some u =>
        by_cases hu0 : u = ""
        · right
          exact ⟨"No MCP server URL found in dev server info", by simp [hu0, reactFail]⟩
        · simp only [hu0, if_neg]
          cases hi : orc.adaptersImport with
          | error e =>
              right
              exact ⟨"Failed to import MCP adapters: " ++ e, by simp [hu0, reactFail]⟩
          | ok _ =>
              cases hc : orc.connect with
              | error e =>
                  right
                  exact ⟨"Failed to connect to MCP server at " ++ u ++ ": " ++ e,
                    by simp [hu0, reactFail]⟩
              | ok _ =>
                  cases hr : s.repo_id with
                  | none => right; exact ⟨"repo_id", by simp [hu0, reactFail]⟩
                  | some rid =>
                      by_cases ha : orc.hasAnthropicKey = true
                      · simp only [ha, Bool.not_true, Bool.false_eq_true, if_false]
                        cases hrun : orc.agentRun with
                        | error e =>
                            right
                            exact ⟨"ReAct agent failed: Exception: ReAct agent failed - " ++ e,
                              by simp [hu0, reactFail]⟩
                        | ok tr => left; simp [hu0]
                      · have ha2 : orc.hasAnthropicKey = false := by simpa using ha
                        right
                        exact ⟨"ReAct agent failed: Exception: ANTHROPIC_API_KEY environment variable is required",
                          by simp [hu0, ha2, reactFail]⟩
  · have hkeys2 : (orc.hasMorphKey && orc.hasFreestyleKey) = false := by simpa using hkeys
    right
    exact ⟨"Both MORPH_API_KEY and FREESTYLE_API_KEY environment variables required",
      by simp [hkeys2, reactFail]⟩

theorem applyUpdates_errors_of_cases (s : MCPGeneratorState) (u : Updates)
    (tag : String)
    (h : u.errors = none ∨ ∃ m, u.errors = some (s.errors ++ [⟨tag, m⟩])) :
    ∃ t, (applyUpdates s u).errors = s.errors ++ t ∧ ∀ r ∈ t, r.phase = tag := by
  rcases h with h | ⟨m, h⟩
  · exact ⟨[], by simp [applyUpdates, h], by simp⟩
  · refine ⟨[⟨tag, m⟩], by simp [applyUpdates, h], ?_⟩
    intro r hr
    simp only [List.mem_singleton] at hr
    rw [hr]

theorem runGraph_errors_append (og : GenOracle) (od : DeployOracle)
    (orc : ReactOracle) (s0 : MCPGeneratorState) :
    ∃ t, (runGraph og od orc s0).1.errors = s0.errors ++ t ∧
      ∀ r ∈ t, r.phase = "generation" ∨ r.phase = "deployment" ∨
        r.phase = "react_workflow" := by
  obtain ⟨t1, h1, p1⟩ :=
    applyUpdates_errors_of_cases s0 _ "generation" (gen_errors_cases og s0)
  obtain ⟨t2, h2, p2⟩ :=
    applyUpdates_errors_of_cases (applyUpdates s0 (generate_mcp_server og s0).1) _
      "deployment" (deploy_errors_cases od _)
  obtain ⟨t3, h3, p3⟩ :=
    applyUpdates_errors_of_cases
      (applyUpdates (applyUpdates s0 (generate_mcp_server og s0).1)
        (deploy_to_dev_server od (applyUpdates s0 (generate_mcp_server og s0).1)).1) _
      "react_workflow" (react_errors_cases orc _)
  refine ⟨t1 ++ (t2 ++ t3), ?_, ?_⟩
  · have hrg : (runGraph og od orc s0).1.errors =
        (applyUpdates
          (applyUpdates (applyUpdates s0 (generate_mcp_server og s0).1)
            (deploy_to_dev_server od (applyUpdates s0 (generate_mcp_server og s0).1)).1)
          (react_agent_workflow orc
            (applyUpdates (applyUpdates s0 (generate_mcp_server og s0).1)
              (deploy_to_dev_server od
                (applyUpdates s0 (generate_mcp_server og s0).1)).1)).1).errors := rfl
    rw [hrg, h3, h2, h1]
    simp [List.append_assoc]
  · intro r hr
    rcases List.mem_append.mp hr with h | h
    · exact Or.inl (p1 r h)
    · rcases List.mem_append.mp h with hh | hh
      · exact Or.inr (Or.inl (p2 r hh))
      · exact Or.inr (Or.inr (p3 r hh))

theorem gen_deploying_files (og : GenOracle) (s : MCPGeneratorState)
    (h : (generate_mcp_server og s).1.current_phase = some Phase.deploying) :
    ∃ f, (generate_mcp_server og s).1.mcp_server_files = some f := by
  cases ht : s.input_type with
  | openapi =>
      by_cases hd : urlAccepts (pyStrip s.input_data) = true
      · cases hog : og.openapiGen (pyStrip s.input_data) with
        | ok f => exact ⟨f, by simp [generate_mcp_server, ht, hd, hog]⟩
        | error e =>
            exfalso
            simp [generate_mcp_server, ht, hd, hog, genFail] at h
      · exfalso
        simp [generate_mcp_server, ht, hd, genFail] at h
  | description =>
      cases hog : og.llmGenerate s.input_data with
      | error e =>
          exfalso
          simp [generate_mcp_server, ht, hog, genFail] at h
      | ok content =>
          cases hp : og.parseJsonFiles content with
          | some f => exact ⟨f, by simp [generate_mcp_server, ht, hog, hp]⟩
          | none =>
              exfalso
              simp [generate_mcp_server, ht, hog, hp, genFail] at h

theorem applyUpdates_phase (s : MCPGeneratorState) (u : Updates) :
    (applyUpdates s u).current_phase = u.current_phase.getD s.current_phase := rfl

theorem applyUpdates_files (s : MCPGeneratorState) (u : Updates) :
    (applyUpdates s u).mcp_server_files =
      u.mcp_server_files.orElse (fun _ => s.mcp_server_files) := rfl

theorem applyUpdates_repo (s : MCPGeneratorState) (u : Updates) :
    (applyUpdates s u).repo_id = u.repo_id.orElse (fun _ => s.repo_id) := rfl

theorem applyUpdates_dev (s : MCPGeneratorState) (u : Updates) :
    (applyUpdates s u).dev_server_info =
      u.dev_server_info.orElse (fun _ => s.dev_server_info) := rfl

theorem applyUpdates_err (s : MCPGeneratorState) (u : Updates) :
    (applyUpdates s u).errors = u.errors.getD s.errors := rfl

theorem applyUpdates_mcpid (s : MCPGeneratorState) (u : Updates) :
    (applyUpdates s u).mcp_id = u.mcp_id.orElse (fun _ => s.mcp_id) := rfl

theorem mcpUrlOf_some (s : MCPGeneratorState) (i : DevServerInfo)
    (h : s.dev_server_info = some i) : mcpUrlOf s = i.mcp_ephemeral_url := by
  unfold mcpUrlOf
  rw [h]

end MCPGen

namespace MCPGen

theorem readyPre : reactSuccessPre reactAllFailProbe readyState :=
  ⟨rfl, rfl, rfl, ⟨"https://dev-1.style.dev/mcp", rfl, by decide⟩, rfl, rfl,
   ⟨"repo-1", rfl⟩⟩

theorem readyPreErr : reactSuccessPre errReact readyState :=
  ⟨rfl, rfl, rfl, ⟨"https://dev-1.style.dev/mcp", rfl, by decide⟩, rfl, rfl,
   ⟨"repo-1", rfl⟩⟩

/-- Claim C1 (counterexample): with iteration cap 1 and a run in which every
probe the agent issued failed and no repair was invoked, the workflow still
terminates Completed with `current_iteration = 0` (not 1) and an empty error
ledger — there is no bounded repair loop, no `IterationExhausted` failure,
and the repairer is not invoked once per iteration. -/
theorem C1_counterexample :
    probesAllFail [AgentTool.probe false] = true ∧
    repairCount [AgentTool.probe false] = 0 ∧
    c1State.max_iterations = 1 ∧
    reactAllFailProbe.agentRun = .ok [AgentTool.probe false] ∧
    (runGraph happyGen happyDeploy reactAllFailProbe c1State).1.current_phase
      = Phase.completed ∧
    (runGraph happyGen happyDeploy reactAllFailProbe c1State).1.current_iteration = 0 ∧
    (runGraph happyGen happyDeploy reactAllFailProbe c1State).1.errors = [] := by
  decide

/-- Claim C1 (amended): the code implements no iteration controller:
`current_iteration` and `max_iterations` pass through every run unchanged
(no handler reads or writes them, and nothing computes
`count < cap`); when the agent invocation returns normally the run ends
Completed regardless of probe outcomes, and when it raises the run ends
Failed with a single react_workflow-tagged error. -/
theorem C1_amended_no_iteration_loop :
    (∀ og od orc s0,
      (runGraph og od orc s0).1.current_iteration = s0.current_iteration ∧
      (runGraph og od orc s0).1.max_iterations = s0.max_iterations) ∧
    (∀ orc s tr, reactSuccessPre orc s → orc.agentRun = .ok tr →
      (applyUpdates s (react_agent_workflow orc s).1).current_phase = Phase.completed) ∧
    (∀ orc s e, reactSuccessPre orc s → orc.agentRun = .error e →
      (applyUpdates s (react_agent_workflow orc s).1).current_phase = Phase.failed ∧
      (applyUpdates s (react_agent_workflow orc s).1).errors =
        s.errors ++ [⟨"react_workflow",
          "ReAct agent failed: Exception: ReAct agent failed - " ++ e⟩]) := by
  refine ⟨fun og od orc s0 => ⟨rfl, rfl⟩, ?_, ?_⟩
  · intro orc s tr hpre hrun
    have h := (react_ok_shape orc s tr hpre hrun).1
    rw [applyUpdates_phase, h]
    rfl
  · intro orc s e hpre hrun
    obtain ⟨h1, h2⟩ := react_err_shape orc s e hpre hrun
    constructor
    · rw [applyUpdates_phase, h1]
      rfl
    · rw [applyUpdates_err, h2]
      rfl

/-- Witness for C1 (amended) at concrete inputs. -/
theorem C1_amended_witness :
    (runGraph happyGen happyDeploy reactAllFailProbe baseState).1.current_iteration
      = baseState.current_iteration ∧
    (applyUpdates readyState
      (react_agent_workflow reactAllFailProbe readyState).1).current_phase
      = Phase.completed ∧
    (applyUpdates readyState
      (react_agent_workflow errReact readyState).1).current_phase = Phase.failed :=
  ⟨(C1_amended_no_iteration_loop.1 happyGen happyDeploy reactAllFailProbe baseState).1,
   C1_amended_no_iteration_loop.2.1 reactAllFailProbe readyState
     [AgentTool.probe false] readyPre rfl,
   (C1_amended_no_iteration_loop.2.2 errReact readyState "boom" readyPreErr rfl).1⟩

/-- Claim C2 (counterexample): after the generate handler fails (phase
Failed), the two later handlers still execute — with no API keys configured
the final ledger holds three records, not one; and if the later
collaborators succeed (here with a caller-supplied file bundle) the phase
leaves Failed and the same run even ends Completed. -/
theorem C2_counterexample :
    (applyUpdates emptyOpenapiState
      (generate_mcp_server happyGen emptyOpenapiState).1).current_phase
      = Phase.failed ∧
    (runGraph happyGen noKeyDeploy noKeyReact emptyOpenapiState).1.errors.length = 3 ∧
    (applyUpdates emptyWithFilesState
      (generate_mcp_server happyGen emptyWithFilesState).1).current_phase
      = Phase.failed ∧
    (runGraph happyGen happyDeploy happyReact emptyWithFilesState).1.current_phase
      = Phase.completed := by
  decide

/-- Claim C2 (amended): Failed is not terminal.  The graph is a linear
chain with unconditional edges, so a handler runs even when the previous
one failed; in particular, whenever the state is already Failed but the
deploy collaborators succeed, the deploy handler moves the phase from
Failed back to Refining. -/
theorem C2_amended_failed_not_terminal (od : DeployOracle)
    (s : MCPGeneratorState)
    (hphase : s.current_phase = Phase.failed) (hkey : od.hasFreestyleKey = true)
    (hf : ∃ f, s.mcp_server_files = some f)
    (hcr : ∃ r, od.createRepo = .ok r)
    (hdev : ∃ i, od.requestDevServer = .ok i) :
    (applyUpdates s (deploy_to_dev_server od s).1).current_phase = Phase.refining := by
  obtain ⟨f, hf⟩ := hf
  obtain ⟨r, hcr⟩ := hcr
  obtain ⟨i, hdev⟩ := hdev
  simp [deploy_to_dev_server, hkey, hf, hcr, hdev, applyUpdates]

/-- Witness for C2 (amended) at a concrete Failed state. -/
theorem C2_amended_witness :
    (applyUpdates failedWithFiles
      (deploy_to_dev_server happyDeploy failedWithFiles).1).current_phase
      = Phase.refining :=
  C2_amended_failed_not_terminal happyDeploy failedWithFiles rfl rfl
    ⟨[("index.js", "srv")], rfl⟩ ⟨"repo-1", rfl⟩ ⟨happyDevInfo, rfl⟩

/-- Claim C3 (counterexample): an empty Description-tagged payload is not
validated at all — the LLM generator collaborator is invoked; and for an
empty Specification-tagged payload the run ends with three ledger records
(generation, deployment, react_workflow), not exactly one. -/
theorem C3_counterexample :
    (generate_mcp_server happyGen emptyDescState).2 = [Call.llmGenerate ""] ∧
    (runGraph happyGen noKeyDeploy noKeyReact emptyOpenapiState).1.errors.length = 3 ∧
    ((runGraph happyGen noKeyDeploy noKeyReact emptyOpenapiState).1.errors.map
      ErrorRec.phase) = ["generation", "deployment", "react_workflow"] := by
  decide

/-- Claim C3 (amended): for an empty payload, an OpenAPI-tagged input makes
the generate handler fail with one generation-tagged record and no
collaborator call (though later handlers still run and may append more
records), while a Description-tagged input skips validation and invokes the
LLM generator. -/
theorem C3_amended_empty_payload (og : GenOracle) (s : MCPGeneratorState)
    (he : s.input_data = "") :
    (s.input_type = InputType.openapi →
      (generate_mcp_server og s).2 = [] ∧
      (generate_mcp_server og s).1.current_phase = some Phase.failed ∧
      (generate_mcp_server og s).1.errors =
        some (s.errors ++ [⟨"generation", "OpenAPI spec must be a valid URL, got: "⟩])) ∧
    (s.input_type = InputType.description →
      (generate_mcp_server og s).2 = [Call.llmGenerate ""]) := by
  constructor
  · intro ht
    have hu : urlAccepts (pyStrip "") = false := by decide
    have hm : ("OpenAPI spec must be a valid URL, got: " ++ pyStrip "")
        = "OpenAPI spec must be a valid URL, got: " := by decide
    simp [generate_mcp_server, ht, he, genFail, hu, hm]
  · intro ht
    cases hog : og.llmGenerate "" with
    | error e => simp [generate_mcp_server, ht, he, hog]
    | ok content =>
        cases hp : og.parseJsonFiles content <;>
          simp [generate_mcp_server, ht, he, hog, hp]

/-- Witness for C3 (amended) at concrete empty-payload states. -/
theorem C3_amended_witness :
    (generate_mcp_server happyGen emptyOpenapiState).2 = [] ∧
    (generate_mcp_server happyGen emptyDescState).2 = [Call.llmGenerate ""] :=
  ⟨((C3_amended_empty_payload happyGen emptyOpenapiState rfl).1 rfl).1,
   (C3_amended_empty_payload happyGen emptyDescState rfl).2 rfl⟩

end MCPGen

namespace MCPGen

/-- Claim C4 (counterexample): the code's validation is a prefix check
only, not URL-syntax validation — the payload with a space
passes the code's check (and the generator collaborator is invoked on it)
although it is not a syntactically valid absolute URL, refuting the
claimed if-and-only-if. -/
theorem C4_counterexample :
    urlAccepts "http://exa mple.com" = true ∧
    specValidHttpUrl "http://exa mple.com" = false ∧
    (generate_mcp_server happyGen c4State).2
      = [Call.openapiGenerator "http://exa mple.com"] := by
  decide

/-- Claim C4 (amended): for Specification-tagged input, validation accepts
exactly when the stripped payload starts with the literal prefix http:// or
https:// (no further URL-syntax check); on rejection the generate handler
makes no collaborator call, fails with one generation-tagged error record,
and leaves no repository id or deployment info in its update (although
later handlers still execute afterwards). -/
theorem C4_amended_prefix_only_validation (og : GenOracle)
    (s : MCPGeneratorState) (ht : s.input_type = InputType.openapi) :
    ((generate_mcp_server og s).2 ≠ [] ↔ genDecision s.input_data = true) ∧
    (genDecision s.input_data = false →
      (generate_mcp_server og s).2 = [] ∧
      (generate_mcp_server og s).1.current_phase = some Phase.failed ∧
      (generate_mcp_server og s).1.errors =
        some (s.errors ++ [⟨"generation",
          "OpenAPI spec must be a valid URL, got: " ++ pyStrip s.input_data⟩]) ∧
      (generate_mcp_server og s).1.repo_id = none ∧
      (generate_mcp_server og s).1.dev_server_info = none) := by
  unfold genDecision
  by_cases hd : urlAccepts (pyStrip s.input_data) = true
  · cases hog : og.openapiGen (pyStrip s.input_data) <;>
      simp [generate_mcp_server, ht, hd, hog, genFail]
  · have hd2 : urlAccepts (pyStrip s.input_data) = false := by
      simpa using hd
    simp [generate_mcp_server, ht, hd2, genFail]

/-- Witness for C4 (amended): an accepted and a rejected concrete payload. -/
theorem C4_amended_witness :
    ((generate_mcp_server happyGen c4State).2 ≠ [] ↔
      genDecision c4State.input_data = true) ∧
    (generate_mcp_server happyGen emptyOpenapiState).2 = [] :=
  ⟨(C4_amended_prefix_only_validation happyGen c4State rfl).1,
   ((C4_amended_prefix_only_validation happyGen emptyOpenapiState rfl).2
     (by decide)).1⟩

/-- Claim C5 (counterexample): a 2xx response that is not exactly 200
(here 204) yields `passed = false` with the failure status captured,
refuting "passed = true for every 2xx response". -/
theorem C5_counterexample :
    (freestyle_test_mcp_server
      (.ok { status_code := 204, jsonBody := .ok "" })).passed = false ∧
    200 ≤ 204 ∧ 204 < 300 ∧
    (freestyle_test_mcp_server (.ok { status_code := 204, jsonBody := .ok "" })).error
      = some "MCP initialization failed: 204" := by
  decide

/-- Claim C5 (amended): the probe issues exactly one request carrying the
fixed JSON-RPC-style initialize envelope (jsonrpc 2.0, method initialize,
protocolVersion 1.0.0, id 1), and `passed = true` exactly when the response
status is 200 and its body decodes as JSON; any other status (including
other 2xx codes) or transport error yields `passed = false` with the
status/detail captured. -/
theorem C5_amended_probe_contract (t : Except String HttpResponse) :
    ((freestyle_test_mcp_server t).passed = true ↔
      ∃ r j, t = .ok r ∧ r.status_code = 200 ∧ r.jsonBody = .ok j) ∧
    (∀ url, probeRequests url = [(url ++ "/mcp/v1/initialize", mcpInitEnvelope)] ∧
      (probeRequests url).length = 1) ∧
    mcpInitEnvelope.jsonrpc = "2.0" ∧ mcpInitEnvelope.method = "initialize" ∧
    mcpInitEnvelope.protocolVersion = "1.0.0" ∧ mcpInitEnvelope.id = 1 := by
  refine ⟨?_, fun url => ⟨rfl, rfl⟩, rfl, rfl, rfl, rfl⟩
  cases t with
  | error e => simp [freestyle_test_mcp_server]
  | ok r =>
      by_cases h200 : r.status_code = 200
      · cases hb : r.jsonBody with
        | ok j => simp [freestyle_test_mcp_server, h200, hb]
        | error e => simp [freestyle_test_mcp_server, h200, hb]
      · simp [freestyle_test_mcp_server, h200]

/-- Claim C6: a failed or unconfigured record-store save never flips a
Completed workflow to Failed — whenever the agent run returns normally the
merged phase is Completed regardless of the database outcome, and the
persisted record id changes only when the save actually returned a
(non-empty) id. -/
theorem C6_persistence_never_flips_completed (orc : ReactOracle)
    (s : MCPGeneratorState) (tr : List AgentTool)
    (hpre : reactSuccessPre orc s) (hrun : orc.agentRun = .ok tr) :
    (applyUpdates s (react_agent_workflow orc s).1).current_phase = Phase.completed ∧
    (∀ id, (applyUpdates s (react_agent_workflow orc s).1).mcp_id = some id →
      s.mcp_id = some id ∨ (orc.dbSave = some id ∧ id ≠ "")) := by
  obtain ⟨hphase, herr, hmcp⟩ := react_ok_shape orc s tr hpre hrun
  constructor
  · rw [applyUpdates_phase, hphase]
    rfl
  · intro id hid
    rw [applyUpdates_mcpid] at hid
    cases hup : (react_agent_workflow orc s).1.mcp_id with
    | some v =>
        right
        rw [hup] at hid
        simp only [Option.orElse] at hid
        have := hmcp v hup
        cases hid
        exact this
    | none =>
        left
        rw [hup] at hid
        simpa [Option.orElse] using hid

/-- Witness for C6 at a concrete run whose database save fails. -/
theorem C6_witness :
    (applyUpdates readyState
      (react_agent_workflow reactAllFailProbe readyState).1).current_phase
      = Phase.completed ∧
    (∀ id, (applyUpdates readyState
        (react_agent_workflow reactAllFailProbe readyState).1).mcp_id = some id →
      readyState.mcp_id = some id ∨
        (reactAllFailProbe.dbSave = some id ∧ id ≠ "")) :=
  C6_persistence_never_flips_completed reactAllFailProbe readyState
    [AgentTool.probe false] readyPre rfl

end MCPGen

namespace MCPGen

/-- Claim C7 (amended): on a fully successful run the observable phase
values after the three handlers are Deploying (after generation), Refining
(after the deployment handle is obtained) and Completed (after the agent
run); the enum values Testing and Production are never assigned. -/
theorem C7_amended_phase_sequence (og : GenOracle) (od : DeployOracle) (orc : ReactOracle)
    (s0 : MCPGeneratorState) (info : DevServerInfo)
    (hgen : (generate_mcp_server og s0).1.current_phase = some Phase.deploying)
    (hkey : od.hasFreestyleKey = true)
    (hcr : ∃ r, od.createRepo = .ok r)
    (hdev : od.requestDevServer = .ok info)
    (hmcp : ∃ u, info.mcp_ephemeral_url = some u ∧ u ≠ "")
    (hm : orc.hasMorphKey = true) (hfk : orc.hasFreestyleKey = true)
    (ha : orc.hasAnthropicKey = true)
    (hi : orc.adaptersImport = .ok ()) (hc : orc.connect = .ok ())
    (htr : ∃ tr, orc.agentRun = .ok tr) :
    phaseTrace og od orc s0 = [Phase.deploying, Phase.refining, Phase.completed] := by
  obtain ⟨f, hfiles⟩ := gen_deploying_files og s0 hgen
  obtain ⟨r, hcr⟩ := hcr
  obtain ⟨u, hu, hu0⟩ := hmcp
  obtain ⟨tr, htr⟩ := htr
  have hs1p : (applyUpdates s0 (generate_mcp_server og s0).1).current_phase
      = Phase.deploying := by
    rw [applyUpdates_phase, hgen]
    rfl
  have hs1f : (applyUpdates s0 (generate_mcp_server og s0).1).mcp_server_files
      = some f := by
    rw [applyUpdates_files, hfiles]
    rfl
  have hdupd : (deploy_to_dev_server od (applyUpdates s0 (generate_mcp_server og s0).1)).1
      = { current_phase := some .refining
          repo_id := some r
          dev_server_info := some info } := by
    simp [deploy_to_dev_server, hkey, hs1f, hcr, hdev]
  have hs2p : (applyUpdates (applyUpdates s0 (generate_mcp_server og s0).1)
      (deploy_to_dev_server od (applyUpdates s0 (generate_mcp_server og s0).1)).1).current_phase
      = Phase.refining := by
    rw [applyUpdates_phase, hdupd]
    rfl
  have hs2d : (applyUpdates (applyUpdates s0 (generate_mcp_server og s0).1)
      (deploy_to_dev_server od (applyUpdates s0 (generate_mcp_server og s0).1)).1).dev_server_info
      = some info := by
    rw [applyUpdates_dev, hdupd]
    rfl
  have hs2r : (applyUpdates (applyUpdates s0 (generate_mcp_server og s0).1)
      (deploy_to_dev_server od (applyUpdates s0 (generate_mcp_server og s0).1)).1).repo_id
      = some r := by
    rw [applyUpdates_repo, hdupd]
    rfl
  have hpre : reactSuccessPre orc
      (applyUpdates (applyUpdates s0 (generate_mcp_server og s0).1)
        (deploy_to_dev_server od (applyUpdates s0 (generate_mcp_server og s0).1)).1) := by
    refine ⟨hm, hfk, ha, ⟨u, ?_, hu0⟩, hi, hc, ⟨r, hs2r⟩⟩
    rw [mcpUrlOf_some _ info hs2d, hu]
  have h3 := (react_ok_shape orc _ tr hpre htr).1
  have hs3p : (applyUpdates
      (applyUpdates (applyUpdates s0 (generate_mcp_server og s0).1)
        (deploy_to_dev_server od (applyUpdates s0 (generate_mcp_server og s0).1)).1)
      (react_agent_workflow orc
        (applyUpdates (applyUpdates s0 (generate_mcp_server og s0).1)
          (deploy_to_dev_server od (applyUpdates s0 (generate_mcp_server og s0).1)).1)).1).current_phase
      = Phase.completed := by
    rw [applyUpdates_phase, h3]
    rfl
  calc phaseTrace og od orc s0
      = [(applyUpdates s0 (generate_mcp_server og s0).1).current_phase,
         (applyUpdates (applyUpdates s0 (generate_mcp_server og s0).1)
           (deploy_to_dev_server od (applyUpdates s0 (generate_mcp_server og s0).1)).1).current_phase,
         (applyUpdates
           (applyUpdates (applyUpdates s0 (generate_mcp_server og s0).1)
             (deploy_to_dev_server od (applyUpdates s0 (generate_mcp_server og s0).1)).1)
           (react_agent_workflow orc
             (applyUpdates (applyUpdates s0 (generate_mcp_server og s0).1)
               (deploy_to_dev_server od
                 (applyUpdates s0 (generate_mcp_server og s0).1)).1)).1).current_phase] := rfl
    _ = [Phase.deploying, Phase.refining, Phase.completed] := by
        rw [hs1p, hs2p, hs3p]

/-- Witness for C7 (amended) at the concrete happy-path fixtures. -/
theorem C7_amended_witness :
    phaseTrace happyGen happyDeploy happyReact baseState
      = [Phase.deploying, Phase.refining, Phase.completed] :=
  C7_amended_phase_sequence happyGen happyDeploy happyReact baseState
    happyDevInfo (by decide) rfl ⟨"repo-1", rfl⟩ rfl
    ⟨"https://dev-1.style.dev/mcp", rfl, by decide⟩ rfl rfl rfl rfl rfl
    ⟨[AgentTool.probe true, AgentTool.deployProd], rfl⟩

/-- Claim C7 (counterexample): on a concrete happy-path run the phase after
the deployment handle is obtained is Refining, not Testing, and neither
Testing nor Promoting (Production) nor even Generating ever appears as a
merged-state phase, refuting the claimed happy-path sequence. -/
theorem C7_counterexample :
    phaseTrace happyGen happyDeploy happyReact baseState
      = [Phase.deploying, Phase.refining, Phase.completed] ∧
    Phase.testing ∉ phaseTrace happyGen happyDeploy happyReact baseState ∧
    Phase.production ∉ phaseTrace happyGen happyDeploy happyReact baseState ∧
    Phase.generating ∉ phaseTrace happyGen happyDeploy happyReact baseState := by
  decide

/-- Claim C8 (counterexample): on failure the generate handler appends a
record tagged with the fixed label "generation", which is not the string
value of any Phase enum member (in particular not of the current phase), so
the record is not tagged with the current phase as claimed. -/
theorem C8_counterexample :
    (generate_mcp_server happyGen emptyOpenapiState).1.errors
      = some [⟨"generation", "OpenAPI spec must be a valid URL, got: "⟩] ∧
    allPhaseStrings.contains "generation" = false := by
  decide

/-- Claim C8 (amended): the ledger is append-only and order-preserving —
every handler either leaves `errors` unset (success) or returns the
incoming sequence unchanged with exactly one record appended, tagged with
that handler's fixed label ("generation", "deployment" or
"react_workflow", which name the handler rather than the Phase value), and
across a whole run the final ledger extends the initial one as a prefix. -/
theorem C8_amended_append_only_ledger :
    (∀ og s, (generate_mcp_server og s).1.errors = none ∨
      ∃ m, (generate_mcp_server og s).1.errors =
        some (s.errors ++ [⟨"generation", m⟩])) ∧
    (∀ od s, (deploy_to_dev_server od s).1.errors = none ∨
      ∃ m, (deploy_to_dev_server od s).1.errors =
        some (s.errors ++ [⟨"deployment", m⟩])) ∧
    (∀ orc s, (react_agent_workflow orc s).1.errors = none ∨
      ∃ m, (react_agent_workflow orc s).1.errors =
        some (s.errors ++ [⟨"react_workflow", m⟩])) ∧
    (∀ og od orc s0, ∃ t, (runGraph og od orc s0).1.errors = s0.errors ++ t ∧
      ∀ r ∈ t, r.phase = "generation" ∨ r.phase = "deployment" ∨
        r.phase = "react_workflow") :=
  ⟨gen_errors_cases, deploy_errors_cases, react_errors_cases,
   runGraph_errors_append⟩

/-- Claim C9: the production promotion mock is total and deterministic — as
a pure function of the repository id (and the process hash function) it
always returns status "deployed", the production URL
https://prod-(repo_id).freestyle.sh and the given repo id, with no external
call performed. -/
theorem C9_deploy_production_total (h : String → Int) (r : String) :
    (freestyle_deploy_production h r).status = "deployed" ∧
    (freestyle_deploy_production h r).production_url
      = "https://prod-" ++ r ++ ".freestyle.sh" ∧
    (freestyle_deploy_production h r).repo_id = r ∧
    (freestyle_deploy_production h r).deployment_id
      = "prod-" ++ r ++ "-" ++ ToString.toString (h r % 1000) :=
  ⟨rfl, rfl, rfl, rfl⟩

/-- Claim C10: Specification payloads are stripped before validation —
surrounding whitespace never changes the accept/reject decision, and on
acceptance the artifact generator is invoked on the stripped URL, not the
raw payload. -/
theorem C10_trim_before_validation :
    (∀ w1 w2 p, (∀ c ∈ w1, isPySpace c = true) → (∀ c ∈ w2, isPySpace c = true) →
      genDecision (String.mk (w1 ++ p.toList ++ w2)) = genDecision p) ∧
    (∀ og s, s.input_type = InputType.openapi → genDecision s.input_data = true →
      (generate_mcp_server og s).2 = [Call.openapiGenerator (pyStrip s.input_data)]) := by
  constructor
  · intro w1 w2 p h1 h2
    unfold genDecision
    rw [pyStrip_sandwich w1 w2 p h1 h2]
  · intro og s ht hd
    unfold genDecision at hd
    cases hog : og.openapiGen (pyStrip s.input_data) <;>
      simp [generate_mcp_server, ht, hd, hog]

/-- Witness for C10 at a concrete whitespace-wrapped URL. -/
theorem C10_witness :
    genDecision (String.mk ([' '] ++ "https://a.com".toList ++ [' ']))
      = genDecision "https://a.com" ∧
    (generate_mcp_server happyGen c10State).2
      = [Call.openapiGenerator (pyStrip c10State.input_data)] :=
  ⟨C10_trim_before_validation.1 [' '] [' '] "https://a.com"
     (by decide) (by decide),
   C10_trim_before_validation.2 happyGen c10State rfl (by decide)⟩

end MCPGen
